import Mathlib

/-!
Shallow embedding of the layout resolution and scale-bar geometry of the
figurex plotting library (`figurex/figure.py`, `figurex/geo/figure.py`,
`figurenv/figure.py`), together with proofs of the specification claims
about them.  Rendering, tile fetching and file output are external
collaborators; only the pure structural and numeric logic is embedded.
Python floats are embedded as exact rationals (`ℚ`), Python ints as `ℤ`
or `ℕ`.
-/

namespace Figurex

/-! ## Layout resolution -/

/-- The distinct non-placeholder labels of a mosaic spec.  A mosaic row is a
list of cells; a cell is `none` for the placeholder label `'.'` and `some l`
for a panel label `l`.  This models the key set of the dictionary returned by
the backend collaborator `matplotlib.pyplot.subplot_mosaic`, whose keys are
exactly the distinct non-placeholder labels of the spec. -/
def mosaicLabels {α : Type} [DecidableEq α] (rows : List (List (Option α))) : List α :=
  (rows.flatten.filterMap id).dedup

/-- Embeds `Figure.create_panel_mosaic` (figurex/figure.py:295-306) and the
mosaic branch of `Figure.__enter__` (figurenv/figure.py:109-122): the labelled
axes dictionary produced by `subplot_mosaic` is flattened into a list ordered
by label, `sorted(self.axes.items(), key=lambda pair: pair[0])`.  Each
resolved slot is identified by its label. -/
def create_panel_mosaic {α : Type} [LinearOrder α] [DecidableEq α]
    (rows : List (List (Option α))) : List α :=
  (mosaicLabels rows).insertionSort (· ≤ ·)

/-- Embeds `Figure.create_panel_grid` (figurex/figure.py:278-292) and the grid
branch of `Figure.__enter__` (figurenv/figure.py:92-107).  The backend
collaborator `matplotlib.pyplot.subplots(rows, cols)` yields a `rows × cols`
array of axes; the code flattens it (numpy row-major `flatten`), except in the
`1 × 1` case, where `subplots` returns a bare axis that the code wraps in a
one-element list (`self.axes = [self.axes]`).  A slot is identified by its
`(row, col)` grid position. -/
def create_panel_grid (rows cols : ℕ) : List (ℕ × ℕ) :=
  if rows = 1 ∧ cols = 1 then
    [(0, 0)]
  else
    ((List.range rows).map (fun r => (List.range cols).map (fun c => (r, c)))).flatten

/-! ## Scale-bar geometry (figurenv/figure.py) -/

/-- Embeds `utm_from_lon` (figurenv/figure.py:233-244):
`floor((lon + 180) / 6) + 1`. -/
def utm_from_lon (lon : ℚ) : ℤ :=
  ⌊(lon + 180) / 6⌋ + 1

/-- Default `location` argument of `add_scalebar` (figurenv/figure.py:246):
`location=(0.89, 0.04)`. -/
def default_location : ℚ × ℚ := (89 / 100, 1 / 25)

/-- The geometry computed by `add_scalebar` (figurenv/figure.py:246-309):
the selected projection zone, the chosen bar length, the named intermediate
coordinates of the source, and the anchors actually passed to the drawing
collaborator (`ax.plot` for the bar, `ax.text` for the label and the north
arrow). -/
structure ScaleBar where
  zone : ℤ
  length : ℚ
  sbcx_1 : ℚ
  sbcy_1 : ℚ
  sbcx_2 : ℚ
  sbcy_2 : ℚ
  sbcx_3 : ℚ
  sbcy_3 : ℚ
  x_ur : ℚ
  y_ur : ℚ
  left : ℚ
  bar_x_start : ℚ
  bar_x_end : ℚ
  bar_y : ℚ
  label_anchor : ℚ × ℚ
  north_arrow_anchor : ℚ × ℚ

/-- Embeds the pure geometry of `add_scalebar` (figurenv/figure.py:246-309).
`gx0, gx1` are the geodetic (degree) x-extent returned by
`ax.get_extent(ax.projection.as_geodetic())`; `x0, x1, y0, y1` is the extent
reprojected into the metric zone projection by the external geodesy
collaborator (`ax.get_extent(utm)`).  The `length` parameter of the source is
unconditionally overwritten by the three-tier ladder, so it is not an input
here.  The bar is drawn from `(sbcx_1 - length * m_per_unit, sbcy_1)` to
`(sbcx_1, sbcy_1)`, the label at `(sbcx_1, sbcy_2)`, and the north arrow at
`(sbcx_1, y_ur)`. -/
def add_scalebar (gx0 gx1 x0 x1 y0 y1 : ℚ) (location : ℚ × ℚ) (m_per_unit : ℚ) :
    ScaleBar :=
  let zone := utm_from_lon ((gx0 + gx1) / 2)
  let length : ℚ :=
    if x1 - x0 > 15000 then 10
    else if x1 - x0 > 1500 then 1
    else 1 / 10
  let sbcx_1 := x0 + (x1 - x0) * (95 / 100)
  let sbcy_1 := y0 + (y1 - y0) * location.2
  let sbcx_2 := x0 + (x1 - x0) * location.1
  let sbcy_2 := y0 + (y1 - y0) * (location.2 + 1 / 100)
  let sbcx_3 := x0 + (x1 - x0) * location.1
  let sbcy_3 := y0 + (y1 - y0) * (location.2 - 1 / 100)
  let x_ur := x0 + (x1 - x0) * (97 / 100)
  let y_ur := y0 + (y1 - y0) * (90 / 100)
  let left := x0 + (x1 - x0) * (3 / 100)
  { zone := zone
    length := length
    sbcx_1 := sbcx_1
    sbcy_1 := sbcy_1
    sbcx_2 := sbcx_2
    sbcy_2 := sbcy_2
    sbcx_3 := sbcx_3
    sbcy_3 := sbcy_3
    x_ur := x_ur
    y_ur := y_ur
    left := left
    bar_x_start := sbcx_1 - length * m_per_unit
    bar_x_end := sbcx_1
    bar_y := sbcy_1
    label_anchor := (sbcx_1, sbcy_2)
    north_arrow_anchor := (sbcx_1, y_ur) }

/-- The scale-bar length ladder exactly as the specification words it:
`length 10` if the metric width exceeds `15000` m, `1` if it is in
`(1500, 15000]`, and `0.1` otherwise. -/
def spec_length_ladder (w : ℚ) : ℚ :=
  if 15000 < w then 10
  else if 1500 < w ∧ w ≤ 15000 then 1
  else 1 / 10

/-! ## Tick generation (figurenv/figure.py) -/

/-- Python 3 built-in `round` to the nearest integer, with ties going to the
nearest even integer (banker's rounding). -/
def pythonRound (q : ℚ) : ℤ :=
  if q - ⌊q⌋ < 1 / 2 then ⌊q⌋
  else if 1 / 2 < q - ⌊q⌋ then ⌊q⌋ + 1
  else if Even ⌊q⌋ then ⌊q⌋ else ⌊q⌋ + 1

/-- The collaborator `numpy.arange(start, stop, step)` for a positive step:
`max 0 ⌈(stop - start) / step⌉` values `start + i * step`, half-open at
`stop`. -/
def np_arange (start stop step : ℚ) : List ℚ :=
  (List.range (⌈(stop - start) / step⌉.toNat)).map (fun i : ℕ => start + (i : ℚ) * step)

/-- Embeds `guess_ticks_from_lim` (figurenv/figure.py:311-324).  The source
derives `round_digit = 10 ** floor(log10(abs(b - a)))` when `steps is None`;
`Int.log 10` is exactly `floor ∘ log10` on positive rationals (connected to
`Real.logb` in the C6 theorem).  It then rounds `a` and `b` to the nearest
multiple of `round_digit` (Python `round`, banker's rounding), generates
`numpy.arange(x_1, x_2, round_digit)` and keeps the values inside `[a, b]`. -/
def guess_ticks_from_lim (a b : ℚ) (steps : Option ℚ) : List ℚ :=
  let round_digit : ℚ :=
    match steps with
    | none => (10 : ℚ) ^ (Int.log 10 |b - a|)
    | some s => s
  let x_1 : ℚ := (pythonRound (a / round_digit) : ℚ) * round_digit
  let x_2 : ℚ := (pythonRound (b / round_digit) : ℚ) * round_digit
  (np_arange x_1 x_2 round_digit).filter (fun v => decide (a ≤ v) && decide (v ≤ b))

/-- The local `round_digit` of `guess_ticks_from_lim` in the `steps is None`
case. -/
def tick_step (a b : ℚ) : ℚ := (10 : ℚ) ^ (Int.log 10 |b - a|)

/-- The local `x_1` of `guess_ticks_from_lim` in the `steps is None` case. -/
def tick_start (a b : ℚ) : ℚ := (pythonRound (a / tick_step a b) : ℚ) * tick_step a b

/-- The local `x_2` of `guess_ticks_from_lim` in the `steps is None` case. -/
def tick_stop (a b : ℚ) : ℚ := (pythonRound (b / tick_step a b) : ℚ) * tick_step a b

/-! ## Basemap extent validation (figurenv/figure.py, figurex/geo/figure.py) -/

/-- The outcome of `add_basemap` as observable to a caller. -/
inductive BasemapOutcome where
  | drawn
  | warned_invalid_extent
  deriving DecidableEq

/-- Embeds the extent guard of `add_basemap` (figurenv/figure.py:226-230) and
`GeoPanel.add_basemap` (figurex/geo/figure.py:99-103):
`if extent and len(extent)==4 and extent[0]<extent[1] and extent[2]<extent[3]`.
`none` models Python `None`; an empty list is falsy in Python, hence the
separate emptiness test. -/
def extent_ok : Option (List ℚ) → Bool
  | none => false
  | some e =>
      !e.isEmpty && e.length == 4
        && decide (e.getD 0 0 < e.getD 1 0) && decide (e.getD 2 0 < e.getD 3 0)

/-- Embeds the control flow of `add_basemap` around its extent guard (the
tile-request construction is an external collaborator and the `tiles` name is
assumed known).  The `Except` error channel models a raised Python exception;
the source never raises: on an invalid extent it prints a warning
(`'! Map extent is invalid, ...'`) and returns normally, drawing nothing. -/
def add_basemap (extent : Option (List ℚ)) : Except String BasemapOutcome :=
  if extent_ok extent then
    Except.ok BasemapOutcome.drawn
  else
    Except.ok BasemapOutcome.warned_invalid_extent

/-! ## Layout dispatch and its failure modes -/

/-- A resolved panel slot: a grid position for uniform grids, a label for
mosaics. -/
inductive Slot (α : Type) where
  | pos (r c : ℕ)
  | lab (l : α)
  deriving DecidableEq

/-- An entry of a Python layout tuple: `int n` an integer, `nonInt` any
non-integer object (carrying only a description). -/
inductive TupEntry where
  | int (n : ℤ)
  | nonInt (descr : String)
  deriving DecidableEq

/-- The Python layout argument of `Figure(...)`: a tuple of arbitrary arity
and entry types (any tuple takes the grid branch, which indexes it as
`self.layout[0]`, `self.layout[1]`), a list of mosaic rows, or any other
object (`other` carries only a description). -/
inductive LayoutSpec (α : Type) where
  | tup (elems : List TupEntry)
  | mosaic (rows : List (List (Option α)))
  | other (descr : String)
  deriving DecidableEq

/-- The errors a `Figure.__enter__` call can surface as, modelling Python
exceptions: `backendValueError` a `ValueError` raised by the matplotlib
collaborator, `attributeErr` an `AttributeError` from reading a never-assigned
axes attribute, `indexErr` an `IndexError` from the repository's own
`self.layout[0]` / `self.layout[1]` on a too-short tuple.
`invalidLayoutError` is the dedicated error type the specification posits;
the code never defines or raises it. -/
inductive PyError where
  | backendValueError
  | attributeErr
  | indexErr
  | invalidLayoutError
  deriving DecidableEq

/-- Input validation of the backend collaborator
`matplotlib.pyplot.subplot_mosaic`: it raises `ValueError` on an empty or
ragged (non-rectangular) mosaic spec. -/
def mosaic_rectangular {α : Type} (rows : List (List (Option α))) : Bool :=
  match rows with
  | [] => false
  | r :: _ => decide (0 < r.length) && rows.all (fun row => row.length == r.length)

/-- Embeds the layout dispatch of `Figure.__enter__` (figurex/figure.py:239-256,
figurenv/figure.py:88-135).  Any tuple layout takes the grid branch, which
evaluates `self.layout[0]` and `self.layout[1]` (figurex/figure.py:280-282) —
raising `IndexError` when the tuple has fewer than two entries, and silently
ignoring entries beyond the first two — and passes them to the collaborator
`plt.subplots`, which raises `ValueError` unless both are positive integers;
a list layout goes to `create_panel_mosaic` via `plt.subplot_mosaic`, which
raises `ValueError` on an empty or ragged spec; any other layout object
matches neither `isinstance` branch, so no axes attribute is ever assigned
and the enter call fails with `AttributeError` (figurex: `return self.ax`;
figurenv: `for ax in self.axesflat`).  The `Except` error channel models the
raised exception. -/
def figure_enter {α : Type} [LinearOrder α] [DecidableEq α] :
    LayoutSpec α → Except PyError (List (Slot α))
  | LayoutSpec.tup (TupEntry.int r :: TupEntry.int c :: _) =>
      if 0 < r ∧ 0 < c then
        Except.ok ((create_panel_grid r.toNat c.toNat).map
          (fun p => Slot.pos p.1 p.2))
      else Except.error PyError.backendValueError
  | LayoutSpec.tup (_ :: _ :: _) => Except.error PyError.backendValueError
  | LayoutSpec.tup _ => Except.error PyError.indexErr
  | LayoutSpec.mosaic rows =>
      if mosaic_rectangular rows then
        Except.ok ((create_panel_mosaic rows).map Slot.lab)
      else Except.error PyError.backendValueError
  | LayoutSpec.other _ => Except.error PyError.attributeErr

/-- A valid layout spec in the specification's words: a 2-tuple of positive
integers, or a non-empty rectangular sequence of rows. -/
def spec_valid_layout {α : Type} : LayoutSpec α → Prop
  | LayoutSpec.tup elems =>
      ∃ r c : ℤ, elems = [TupEntry.int r, TupEntry.int c] ∧ 0 < r ∧ 0 < c
  | LayoutSpec.mosaic rows => mosaic_rectangular rows = true
  | LayoutSpec.other _ => False

/-! ## The shared axis counter (figurex/figure.py) -/

/-- The class-level state of `Figure`: the shared counter `Figure.current_ax`
(figurex/figure.py:197-199) and the single-panel flag `Figure.is_panel`
(figurex/figure.py:201-202). -/
structure FigAxState where
  current_ax : ℤ
  is_panel : Bool
  deriving DecidableEq

/-- Python/numpy list indexing as used by `axes_list[Figure.current_ax]`:
non-negative indices from the front, negative indices from the back, `none`
for out of range. -/
def pyIndex {β : Type} (xs : List β) (i : ℤ) : Option β :=
  if 0 ≤ i then xs[i.toNat]?
  else if 0 ≤ (xs.length : ℤ) + i then xs[((xs.length : ℤ) + i).toNat]?
  else none

/-- Embeds the class-state part of `Figure.__init__` (figurex/figure.py:230-234):
`Figure.current_ax = -1` and `Figure.is_panel = self.layout == (1,1)` — the
Python tuple `(1,1)` is `LayoutSpec.tup [TupEntry.int 1, TupEntry.int 1]`. -/
def Figure_init {α : Type} [DecidableEq α] (layout : LayoutSpec α) : FigAxState :=
  { current_ax := -1,
    is_panel := decide (layout = LayoutSpec.tup [TupEntry.int 1, TupEntry.int 1]) }

/-- Embeds `Figure.get_next_axis` (figurex/figure.py:308-325): unless in
single-panel mode, increment the shared counter; then return the axis at the
(possibly negative) counter index of the current figure's axes list. -/
def get_next_axis {β : Type} (axes : List β) (s : FigAxState) : Option β × FigAxState :=
  let s2 := if s.is_panel then s else { s with current_ax := s.current_ax + 1 }
  (pyIndex axes s2.current_ax, s2)

/-- The class state after `n` successive `get_next_axis` calls (one per
`Panel.__enter__`, figurex/figure.py:58-61). -/
def calls_state {β : Type} (axes : List β) (s : FigAxState) : ℕ → FigAxState
  | 0 => s
  | n + 1 => (get_next_axis axes (calls_state axes s n)).2

/-! ## Panel settings priority (figurex/figure.py) -/

/-- The per-panel styling settings; each is `none` for Python `None`. -/
structure PanelSettings where
  spines : Option String
  grid : Option String
  x_range : Option (ℚ × ℚ)
  y_range : Option (ℚ × ℚ)
  extent : Option (List ℚ)
  deriving DecidableEq

/-- Embeds `Panel.default_panel_kw` (figurex/figure.py:14-23):
`spines="lb"`, `grid="xy"`, `x_range=None`, `y_range=None`, `extent=None`. -/
def default_panel_kw : PanelSettings :=
  { spines := some "lb", grid := some "xy", x_range := none, y_range := none,
    extent := none }

/-- The panel-related keyword arguments of a `Figure(...)` construction:
`none` means the keyword was not passed, `some v` that it was passed with
value `v` (`v` itself is `none` for an explicit Python `None`). -/
structure FigPanelKwargs where
  spines : Option (Option String)
  grid : Option (Option String)
  x_range : Option (Option (ℚ × ℚ))
  y_range : Option (Option (ℚ × ℚ))
  extent : Option (Option (List ℚ))

/-- Embeds the panel-kwarg reset of `Figure.__init__` (figurex/figure.py:224-228):
`Panel.panel_kw = Panel.default_panel_kw.copy()`, then each of the five keys
present in `kwargs` overrides the fresh copy.  The previous value `old` of
the class attribute `Panel.panel_kw` is a parameter only so that the result's
independence from it can be stated. -/
def Figure_init_panel_kw (kwargs : FigPanelKwargs) (_old : PanelSettings) :
    PanelSettings :=
  { spines := match kwargs.spines with
      | some v => v
      | none => default_panel_kw.spines
    grid := match kwargs.grid with
      | some v => v
      | none => default_panel_kw.grid
    x_range := match kwargs.x_range with
      | some v => v
      | none => default_panel_kw.x_range
    y_range := match kwargs.y_range with
      | some v => v
      | none => default_panel_kw.y_range
    extent := match kwargs.extent with
      | some v => v
      | none => default_panel_kw.extent }

/-- Embeds the setting resolution of `Panel.__init__` (figurex/figure.py:26-55):
per setting, a non-`None` argument passed to the Panel itself wins, otherwise
the class-level `Panel.panel_kw` entry applies (its five keys are always
present). -/
def Panel_init (args : PanelSettings) (panel_kw : PanelSettings) : PanelSettings :=
  { spines := match args.spines with
      | some v => some v
      | none => panel_kw.spines
    grid := match args.grid with
      | some v => some v
      | none => panel_kw.grid
    x_range := match args.x_range with
      | some v => some v
      | none => panel_kw.x_range
    y_range := match args.y_range with
      | some v => some v
      | none => panel_kw.y_range
    extent := match args.extent with
      | some v => some v
      | none => panel_kw.extent }

/-- The specification's three-level priority for one setting: the Panel's own
argument wins; otherwise the keyword given to the enclosing Figure applies;
otherwise the class default. -/
def spec_setting_priority {γ : Type} (panel_arg : Option γ)
    (figure_kw : Option (Option γ)) (dflt : Option γ) : Option γ :=
  match panel_arg with
  | some v => some v
  | none =>
      match figure_kw with
      | some w => w
      | none => dflt

/-! ## Theorems -/

theorem create_panel_mosaic_spec {α : Type} [LinearOrder α] [DecidableEq α]
    (rows : List (List (Option α))) :
    List.Sorted (· ≤ ·) (create_panel_mosaic rows) ∧
    (create_panel_mosaic rows).Nodup ∧
    ∀ l : α, l ∈ create_panel_mosaic rows ↔ some l ∈ rows.flatten := by
  refine ⟨List.sorted_insertionSort _ _, ?_, ?_⟩
  · exact ((List.perm_insertionSort (· ≤ ·) (mosaicLabels rows)).nodup_iff).mpr
      (List.nodup_dedup _)
  · intro l
    rw [create_panel_mosaic,
      (List.perm_insertionSort (· ≤ ·) (mosaicLabels rows)).mem_iff,
      mosaicLabels, List.mem_dedup, List.mem_filterMap]
    constructor
    · rintro ⟨x, hx, rfl⟩
      exact hx
    · intro hx
      exact ⟨some l, hx, rfl⟩

/-- **C1.** For every mosaic layout spec, the resolved panel sequence is
ordered by ascending sort of the distinct cell labels — numeric labels
(embedded as `ℤ`) sort numerically, string labels sort lexically — each label
yields exactly one slot, the placeholder label `'.'` (`none`) yields no slot
(every slot is a non-placeholder label occurring in the spec), and the spec
`[[0,0,1],[2,'.',1]]` resolves to exactly 3 slots in label order `[0,1,2]`. -/
theorem C1_mosaic_resolution_order :
    (∀ rows : List (List (Option ℤ)),
        List.Sorted (· ≤ ·) (create_panel_mosaic rows) ∧
        (create_panel_mosaic rows).Nodup ∧
        ∀ l : ℤ, l ∈ create_panel_mosaic rows ↔ some l ∈ rows.flatten) ∧
    (∀ rows : List (List (Option String)),
        List.Sorted (· ≤ ·) (create_panel_mosaic rows) ∧
        (create_panel_mosaic rows).Nodup ∧
        ∀ l : String, l ∈ create_panel_mosaic rows ↔ some l ∈ rows.flatten) ∧
    create_panel_mosaic [[some 0, some 0, some 1], [some 2, none, some 1]]
      = ([0, 1, 2] : List ℤ) :=
  ⟨fun rows => create_panel_mosaic_spec rows,
   fun rows => create_panel_mosaic_spec rows,
   by decide⟩

theorem grid_flatten (rows cols : ℕ) (hc : 0 < cols) :
    ((List.range rows).map (fun r => (List.range cols).map (fun c => (r, c)))).flatten
      = (List.range (rows * cols)).map (fun i => (i / cols, i % cols)) := by
  induction rows with
  | zero => simp
  | succ n ih =>
    rw [List.range_succ, List.map_append, List.flatten_append, ih,
      show (n + 1) * cols = n * cols + cols by ring, List.range_add, List.map_append]
    congr 1
    · simp only [List.map_singleton, List.flatten, List.append_nil]
      rw [List.map_map]
      apply List.map_congr_left
      intro c hc2
      rw [List.mem_range] at hc2
      simp only [Function.comp]
      have hdiv : (n * cols + c) / cols = n := by
        rw [mul_comm, Nat.mul_add_div hc, Nat.div_eq_of_lt hc2, add_zero]
      have hmod : (n * cols + c) % cols = c := by
        rw [mul_comm, Nat.mul_add_mod, Nat.mod_eq_of_lt hc2]
      rw [hdiv, hmod]

/-- **C2.** For every uniform grid spec `(rows, cols)` with positive `rows`
and `cols`, resolution yields exactly `rows * cols` distinct panel slots in
row-major order (the `i`-th slot is grid cell `(i / cols, i % cols)`); when
`rows = cols = 1` it still yields a sequence containing exactly one slot,
never an unwrapped scalar. -/
theorem C2_grid_resolution (rows cols : ℕ) (hr : 0 < rows) (hc : 0 < cols) :
    (create_panel_grid rows cols).length = rows * cols ∧
    (create_panel_grid rows cols).Nodup ∧
    (∀ i : ℕ, i < rows * cols →
        (create_panel_grid rows cols)[i]? = some (i / cols, i % cols)) ∧
    create_panel_grid 1 1 = [(0, 0)] := by
  have h11 : create_panel_grid 1 1 = [(0, 0)] := by
    rw [create_panel_grid, if_pos ⟨rfl, rfl⟩]
  by_cases h : rows = 1 ∧ cols = 1
  · obtain ⟨h1, h2⟩ := h
    subst h1; subst h2
    refine ⟨by rw [h11]; rfl, by rw [h11]; exact List.nodup_singleton _, ?_, h11⟩
    intro i hi
    interval_cases i
    rw [h11]
    rfl
  · have hgrid : create_panel_grid rows cols
        = (List.range (rows * cols)).map (fun i => (i / cols, i % cols)) := by
      rw [create_panel_grid, if_neg h, grid_flatten rows cols hc]
    refine ⟨?_, ?_, ?_, h11⟩
    · rw [hgrid, List.length_map, List.length_range]
    · rw [hgrid]
      refine List.Nodup.map_on ?_ (List.nodup_range _)
      intro x _ y _ hxy
      have hx1 : x / cols = y / cols := congrArg Prod.fst hxy
      have hx2 : x % cols = y % cols := congrArg Prod.snd hxy
      calc x = cols * (x / cols) + x % cols := (Nat.div_add_mod x cols).symm
        _ = cols * (y / cols) + y % cols := by rw [hx1, hx2]
        _ = y := Nat.div_add_mod y cols
    · intro i hi
      rw [hgrid, List.getElem?_map, List.getElem?_range hi]
      rfl

theorem C2_grid_resolution_witness :
    (create_panel_grid 2 3).length = 2 * 3 ∧
    (create_panel_grid 2 3)[4]? = some (1, 1) ∧
    create_panel_grid 1 1 = [(0, 0)] :=
  ⟨(C2_grid_resolution 2 3 (by norm_num) (by norm_num)).1,
   (C2_grid_resolution 2 3 (by norm_num) (by norm_num)).2.2.1 4 (by norm_num),
   (C2_grid_resolution 2 3 (by norm_num) (by norm_num)).2.2.2⟩

theorem add_scalebar_length_eq (gx0 gx1 x0 x1 y0 y1 : ℚ) (location : ℚ × ℚ)
    (m_per_unit : ℚ) :
    (add_scalebar gx0 gx1 x0 x1 y0 y1 location m_per_unit).length
      = if x1 - x0 > 15000 then 10 else if x1 - x0 > 1500 then 1 else 1 / 10 := rfl

/-- **C3.** For every metric extent, the scale-bar length is chosen by a
three-tier ladder on the metric width `w = x1 - x0` with exclusive-lower
thresholds: length `10` km if `w > 15000` m, `1` km if `15000 ≥ w > 1500` m,
and `0.1` km otherwise; in particular width `20000` gives `10`, width `2000`
gives `1`, and width `500` gives `0.1`. -/
theorem C3_scalebar_length_ladder :
    (∀ gx0 gx1 x0 x1 y0 y1 location m_per_unit,
        (add_scalebar gx0 gx1 x0 x1 y0 y1 location m_per_unit).length
          = spec_length_ladder (x1 - x0)) ∧
    (add_scalebar 0 1 0 20000 0 100 default_location 1000).length = 10 ∧
    (add_scalebar 0 1 0 2000 0 100 default_location 1000).length = 1 ∧
    (add_scalebar 0 1 0 500 0 100 default_location 1000).length = 1 / 10 := by
  have hladder : ∀ gx0 gx1 x0 x1 y0 y1 location m_per_unit,
      (add_scalebar gx0 gx1 x0 x1 y0 y1 location m_per_unit).length
        = spec_length_ladder (x1 - x0) := by
    intro gx0 gx1 x0 x1 y0 y1 location m_per_unit
    rw [add_scalebar_length_eq, spec_length_ladder]
    by_cases h1 : x1 - x0 > 15000
    · rw [if_pos h1, if_pos h1]
    · rw [if_neg h1, if_neg h1]
      by_cases h2 : x1 - x0 > 1500
      · rw [if_pos h2, if_pos ⟨h2, by linarith⟩]
      · rw [if_neg h2, if_neg (fun hc => h2 hc.1)]
  refine ⟨hladder, ?_, ?_, ?_⟩ <;>
    rw [hladder] <;> rw [spec_length_ladder] <;> norm_num

/-- **C4.** For every longitude `lon`, the projection zone index equals
`floor((lon + 180) / 6) + 1`, and `add_scalebar` computes it from the
extent's center longitude `(gx0 + gx1) / 2`; in particular the zone of
`-180` is `1`, of `0` is `31`, and of `179.9` is `60`. -/
theorem C4_utm_zone :
    (∀ lon : ℚ, utm_from_lon lon = ⌊(lon + 180) / 6⌋ + 1) ∧
    (∀ gx0 gx1 x0 x1 y0 y1 location m_per_unit,
        (add_scalebar gx0 gx1 x0 x1 y0 y1 location m_per_unit).zone
          = utm_from_lon ((gx0 + gx1) / 2)) ∧
    utm_from_lon (-180) = 1 ∧ utm_from_lon 0 = 31 ∧ utm_from_lon (1799 / 10) = 60 := by
  refine ⟨fun lon => rfl, fun gx0 gx1 x0 x1 y0 y1 location m_per_unit => rfl, ?_, ?_, ?_⟩
  · norm_num [utm_from_lon]
  · norm_num [utm_from_lon]
  · rw [utm_from_lon, show ((1799 : ℚ) / 10 + 180) / 6 = 3599 / 60 by norm_num,
      show ⌊(3599 / 60 : ℚ)⌋ = 59 by norm_num]
    norm_num

/-- **C5 counterexample.** The claim places the north-arrow anchor at
fractions `(0.97, 0.90)` of the extent; on the metric extent
`(0, 100, 0, 100)` the anchor actually passed to the drawing call is
`(95, 90)` — x-fraction `0.95`, not `0.97` — so the claim as stated is
false.  The `0.97` fraction appears only in the unused variable `x_ur`. -/
theorem C5_counterexample :
    (add_scalebar 0 1 0 100 0 100 default_location 1000).north_arrow_anchor
        = (95, 90) ∧
    (add_scalebar 0 1 0 100 0 100 default_location 1000).north_arrow_anchor
        ≠ (0 + (100 - 0) * (97 / 100), 0 + (100 - 0) * (90 / 100)) := by
  constructor
  · simp only [add_scalebar, default_location]
    norm_num
  · simp only [add_scalebar, default_location]
    intro h
    have h1 := congrArg Prod.fst h
    norm_num at h1

/-- **C5 (amended).** For every metric extent `(x0, x1, y0, y1)` (with the
default `location` and `m_per_unit`), the scale-bar anchors are affine
combinations of the extent corners: the bar's right endpoint is at fraction
`0.95` along x and `0.04` up from the bottom, its left endpoint is that point
minus the bar length in metres, the label anchor sits slightly above the bar
(fraction `0.05`), and the north-arrow anchor sits at fractions
`(0.95, 0.90)`; the fractions `0.97` and `0.03` are computed (`x_ur`, `left`)
but unused by any drawing call. -/
theorem C5_anchor_placement (gx0 gx1 x0 x1 y0 y1 : ℚ) :
    (add_scalebar gx0 gx1 x0 x1 y0 y1 default_location 1000).bar_x_end
        = x0 + (x1 - x0) * (95 / 100) ∧
    (add_scalebar gx0 gx1 x0 x1 y0 y1 default_location 1000).bar_y
        = y0 + (y1 - y0) * (4 / 100) ∧
    (add_scalebar gx0 gx1 x0 x1 y0 y1 default_location 1000).bar_x_start
        = x0 + (x1 - x0) * (95 / 100)
          - (add_scalebar gx0 gx1 x0 x1 y0 y1 default_location 1000).length * 1000 ∧
    (add_scalebar gx0 gx1 x0 x1 y0 y1 default_location 1000).label_anchor
        = (x0 + (x1 - x0) * (95 / 100), y0 + (y1 - y0) * (5 / 100)) ∧
    (add_scalebar gx0 gx1 x0 x1 y0 y1 default_location 1000).north_arrow_anchor
        = (x0 + (x1 - x0) * (95 / 100), y0 + (y1 - y0) * (90 / 100)) ∧
    (add_scalebar gx0 gx1 x0 x1 y0 y1 default_location 1000).x_ur
        = x0 + (x1 - x0) * (97 / 100) ∧
    (add_scalebar gx0 gx1 x0 x1 y0 y1 default_location 1000).left
        = x0 + (x1 - x0) * (3 / 100) := by
  refine ⟨?_, ?_, ?_, ?_, ?_, ?_, ?_⟩ <;>
    simp only [add_scalebar, default_location, Prod.mk.injEq] <;>
    norm_num

theorem log_rat_real (q : ℚ) (hq : 0 < q) : Int.log 10 ((q : ℝ)) = Int.log 10 q := by
  have hqR : (0 : ℝ) < (q : ℝ) := by exact_mod_cast hq
  apply le_antisymm
  · have h := Int.lt_zpow_succ_log_self (R := ℚ) (b := 10) (by norm_num) q
    have h2 : ((q : ℝ)) < ((10 : ℕ) : ℝ) ^ (Int.log 10 q + 1) := by
      have hc := (Rat.cast_lt (K := ℝ)).mpr h
      rw [Rat.cast_zpow] at hc
      convert hc using 2
    have h3 := (Int.lt_zpow_iff_log_lt (R := ℝ) (b := 10) (by norm_num) hqR).mp h2
    omega
  · have h := Int.zpow_log_le_self (R := ℚ) (b := 10) (by norm_num) hq
    have h2 : (((10 : ℕ) : ℝ)) ^ (Int.log 10 q) ≤ (q : ℝ) := by
      have hc := (Rat.cast_le (K := ℝ)).mpr h
      rw [Rat.cast_zpow] at hc
      convert hc using 2
    exact (Int.zpow_le_iff_le_log (R := ℝ) (b := 10) (by norm_num) hqR).mp h2

theorem floor_log10 (q : ℚ) (hq : 0 < q) : (⌊Real.logb 10 (q : ℝ)⌋) = Int.log 10 q := by
  have hqR : (0 : ℝ) ≤ (q : ℝ) := by positivity
  rw [show (10 : ℝ) = ((10 : ℕ) : ℝ) by norm_num, Real.floor_logb_natCast hqR,
    log_rat_real q hq]

theorem log_7_20 : Int.log 10 (7 / 20 : ℚ) = -1 := by
  have h1 : Int.log 10 (7 / 20 : ℚ) < 0 := by
    rw [← Int.lt_zpow_iff_log_lt (by norm_num) (by norm_num : (0 : ℚ) < 7 / 20)]
    norm_num
  have h2 : (-1 : ℤ) ≤ Int.log 10 (7 / 20 : ℚ) := by
    rw [← Int.zpow_le_iff_le_log (by norm_num) (by norm_num : (0 : ℚ) < 7 / 20)]
    norm_num
  omega

theorem guess_ticks_none_eq (a b : ℚ) :
    guess_ticks_from_lim a b none
      = (np_arange (tick_start a b) (tick_stop a b) (tick_step a b)).filter
          (fun v => decide (a ≤ v) && decide (v ≤ b)) := rfl

/-- **C6.** For every `a < b` with step omitted, tick generation derives
`step = 10 ^ ⌊log10 |b - a|⌋`, generates a regular sequence starting at
`round(a / step) * step` in increments of `step` (the `numpy.arange`
half-open raster up to `round(b / step) * step`), and returns exactly the
generated values `v` with `a ≤ v ≤ b`, inclusive at both ends; in particular
`guess_ticks(0.0, 0.35)` derives step `0.1` and returns
`[0.0, 0.1, 0.2, 0.3]`. -/
theorem C6_guess_ticks (a b : ℚ) (hab : a < b) :
    tick_step a b = (10 : ℚ) ^ (⌊Real.logb 10 ((|b - a| : ℚ) : ℝ)⌋) ∧
    (∀ v : ℚ, v ∈ guess_ticks_from_lim a b none ↔
        ((∃ k : ℕ, (k : ℤ) < ⌈(tick_stop a b - tick_start a b) / tick_step a b⌉ ∧
            v = tick_start a b + (k : ℚ) * tick_step a b) ∧ a ≤ v ∧ v ≤ b)) ∧
    tick_step 0 (7 / 20) = 1 / 10 ∧
    guess_ticks_from_lim 0 (7 / 20) none = [0, 1 / 10, 1 / 5, 3 / 10] := by
  have habs : (0 : ℚ) < |b - a| := by
    rw [abs_pos]
    exact sub_ne_zero.mpr (ne_of_gt hab)
  refine ⟨?_, ?_, ?_, ?_⟩
  · rw [tick_step, floor_log10 _ habs]
  · intro v
    rw [guess_ticks_none_eq, List.mem_filter]
    simp only [Bool.and_eq_true, decide_eq_true_eq]
    constructor
    · rintro ⟨hmem, hv1, hv2⟩
      refine ⟨?_, hv1, hv2⟩
      rw [np_arange] at hmem
      obtain ⟨k, hk, hkv⟩ := List.mem_map.mp hmem
      rw [List.mem_range] at hk
      exact ⟨k, Int.lt_toNat.mp hk, hkv.symm⟩
    · rintro ⟨⟨k, hk, hkv⟩, hv1, hv2⟩
      refine ⟨?_, hv1, hv2⟩
      rw [np_arange]
      exact List.mem_map.mpr ⟨k, List.mem_range.mpr (Int.lt_toNat.mpr hk), hkv.symm⟩
  · rw [tick_step, show |(7 : ℚ) / 20 - 0| = 7 / 20 by norm_num, log_7_20]
    norm_num
  · have hstep : tick_step 0 (7 / 20) = 1 / 10 := by
      rw [tick_step, show |(7 : ℚ) / 20 - 0| = 7 / 20 by norm_num, log_7_20]
      norm_num
    have hr0 : pythonRound ((0 : ℚ) / (1 / 10)) = 0 := by
      norm_num [pythonRound]
    have hr72 : pythonRound ((7 : ℚ) / 20 / (1 / 10)) = 4 := by
      rw [show (7 : ℚ) / 20 / (1 / 10) = 7 / 2 by norm_num, pythonRound,
        show ⌊(7 : ℚ) / 2⌋ = 3 by norm_num]
      norm_num [Int.even_iff]
    have hstart : tick_start 0 (7 / 20) = 0 := by
      rw [tick_start, hstep, hr0]
      norm_num
    have hstop : tick_stop 0 (7 / 20) = 2 / 5 := by
      rw [tick_stop, hstep, hr72]
      norm_num
    rw [guess_ticks_none_eq, hstart, hstop, hstep]
    rw [np_arange, show ⌈((2 : ℚ) / 5 - 0) / (1 / 10)⌉ = 4 by norm_num]
    rw [show ((4 : ℤ).toNat) = 4 from rfl,
      show List.range 4 = [0, 1, 2, 3] from rfl]
    simp only [List.map_cons, List.map_nil, Nat.cast_ofNat, Nat.cast_one, Nat.cast_zero]
    rw [show (0 : ℚ) + 0 * (1 / 10) = 0 by norm_num,
      show (0 : ℚ) + 1 * (1 / 10) = 1 / 10 by norm_num,
      show (0 : ℚ) + 2 * (1 / 10) = 1 / 5 by norm_num,
      show (0 : ℚ) + 3 * (1 / 10) = 3 / 10 by norm_num]
    apply List.filter_eq_self.mpr
    intro v hv
    fin_cases hv <;>
      simp only [Bool.and_eq_true, decide_eq_true_eq] <;>
      norm_num

theorem C6_guess_ticks_witness :
    ((0 : ℚ) < 7 / 20) ∧
    tick_step 0 (7 / 20) = 1 / 10 ∧
    guess_ticks_from_lim 0 (7 / 20) none = [0, 1 / 10, 1 / 5, 3 / 10] :=
  ⟨by norm_num,
   (C6_guess_ticks 0 (7 / 20) (by norm_num)).2.2.1,
   (C6_guess_ticks 0 (7 / 20) (by norm_num)).2.2.2⟩

/-- **C7 counterexample.** On the degenerate extents `(10, 5, 0, 1)` and
`(0, 0, 0, 1)` the code does not raise any exception (the claim's
`InvalidExtentError` does not exist in the code): `add_basemap` prints a
warning and returns normally, drawing nothing. -/
theorem C7_counterexample :
    add_basemap (some [10, 5, 0, 1]) = Except.ok BasemapOutcome.warned_invalid_extent ∧
    add_basemap (some [0, 0, 0, 1]) = Except.ok BasemapOutcome.warned_invalid_extent ∧
    (¬ ∃ msg, add_basemap (some [10, 5, 0, 1]) = Except.error msg) ∧
    (¬ ∃ msg, add_basemap (some [0, 0, 0, 1]) = Except.error msg) := by
  have h1 : extent_ok (some [10, 5, 0, 1]) = false := by
    simp only [extent_ok, List.getD_cons_zero, List.getD_cons_succ]
    norm_num
  have h2 : extent_ok (some [0, 0, 0, 1]) = false := by
    simp only [extent_ok, List.getD_cons_zero, List.getD_cons_succ]
    norm_num
  refine ⟨by simp [add_basemap, h1], by simp [add_basemap, h2], ?_, ?_⟩
  · rintro ⟨msg, hmsg⟩
    simp [add_basemap, h1] at hmsg
  · rintro ⟨msg, hmsg⟩
    simp [add_basemap, h2] at hmsg

/-- **C7 (amended).** For every extent `[x0, x1, y0, y1]` that is degenerate
(`x0 ≥ x1` or `y0 ≥ y1`), the basemap computation detects it, draws nothing
and returns no partial result — but it signals this by printing a warning and
returning normally, not by raising an `InvalidExtentError` (no such exception
type exists in the code). -/
theorem C7_degenerate_extent_warns (e : List ℚ) (x0 x1 y0 y1 : ℚ)
    (he : e = [x0, x1, y0, y1]) (hd : x1 ≤ x0 ∨ y1 ≤ y0) :
    add_basemap (some e) = Except.ok BasemapOutcome.warned_invalid_extent := by
  subst he
  have h : extent_ok (some [x0, x1, y0, y1]) = false := by
    simp only [extent_ok, List.getD_cons_zero, List.getD_cons_succ]
    rcases hd with h | h
    · simp [not_lt.mpr h]
    · simp [not_lt.mpr h]
  simp [add_basemap, h]

theorem C7_degenerate_extent_warns_witness :
    ([10, 5, 0, 1] : List ℚ) = [10, 5, 0, 1] ∧ ((5 : ℚ) ≤ 10 ∨ (1 : ℚ) ≤ 0) ∧
    add_basemap (some [10, 5, 0, 1]) = Except.ok BasemapOutcome.warned_invalid_extent :=
  ⟨rfl, Or.inl (by norm_num),
   C7_degenerate_extent_warns [10, 5, 0, 1] 10 5 0 1 rfl (Or.inl (by norm_num))⟩

theorem figure_enter_tup_int_int {α : Type} [LinearOrder α] [DecidableEq α]
    (r c : ℤ) (rest : List TupEntry) :
    figure_enter (α := α) (LayoutSpec.tup (TupEntry.int r :: TupEntry.int c :: rest))
      = if 0 < r ∧ 0 < c then
          Except.ok ((create_panel_grid r.toNat c.toNat).map
            (fun p => Slot.pos p.1 p.2))
        else Except.error PyError.backendValueError := rfl

/-- **C8 counterexample.** No layout spec fails with `InvalidLayoutError` —
no such error type exists in the code.  A non-tuple, non-list spec (say the
Python float `0.5`) matches neither `isinstance` branch and dies with an
`AttributeError`; the tuple `(2,)` dies with an `IndexError` at
`self.layout[1]`; and the tuple `(2, 3, 4)` — also not a 2-tuple of positive
integers — does not fail at all: it resolves to the 2×3 grid of its first
two entries. -/
theorem C8_counterexample :
    figure_enter (α := ℤ) (LayoutSpec.other "0.5") = Except.error PyError.attributeErr ∧
    figure_enter (α := ℤ) (LayoutSpec.other "0.5")
      ≠ Except.error PyError.invalidLayoutError ∧
    figure_enter (α := ℤ) (LayoutSpec.tup [TupEntry.int 2])
      = Except.error PyError.indexErr ∧
    figure_enter (α := ℤ) (LayoutSpec.tup [TupEntry.int 2])
      ≠ Except.error PyError.invalidLayoutError ∧
    figure_enter (α := ℤ) (LayoutSpec.tup [TupEntry.int 2, TupEntry.int 3, TupEntry.int 4])
      = Except.ok ((create_panel_grid 2 3).map (fun p => Slot.pos p.1 p.2)) := by
  refine ⟨rfl, fun h => ?_, rfl, fun h => ?_, ?_⟩
  · rw [show figure_enter (α := ℤ) (LayoutSpec.other "0.5")
        = Except.error PyError.attributeErr from rfl] at h
    exact PyError.noConfusion (Except.error.inj h)
  · rw [show figure_enter (α := ℤ) (LayoutSpec.tup [TupEntry.int 2])
        = Except.error PyError.indexErr from rfl] at h
    exact PyError.noConfusion (Except.error.inj h)
  · rw [figure_enter_tup_int_int, if_pos (by norm_num)]
    rfl

/-- **C8 (amended).** For every layout spec that is neither a 2-tuple of
positive integers nor a non-empty rectangular sequence of rows, resolution
never fails with an `InvalidLayoutError` (no such type exists in the code).
It either fails synchronously with no partial result — an `AttributeError`
for non-tuple, non-list specs, an `IndexError` from the code's own
`self.layout[1]` (or `[0]`) for tuples of arity below two, a backend
`ValueError` for non-positive or non-integer dimensions and for empty or
ragged mosaics — or, when the spec is a tuple of arity above two whose first
two entries are positive integers, it does not fail at all: it silently
resolves to the grid of the first two entries. -/
theorem C8_invalid_layout_failure (spec : LayoutSpec ℤ)
    (hbad : ¬ spec_valid_layout spec) :
    figure_enter spec ≠ Except.error PyError.invalidLayoutError ∧
    ((∃ e : PyError, e ≠ PyError.invalidLayoutError ∧
        figure_enter spec = Except.error e) ∨
     (∃ (r c : ℤ) (rest : List TupEntry),
        spec = LayoutSpec.tup (TupEntry.int r :: TupEntry.int c :: rest) ∧
        0 < r ∧ 0 < c ∧ rest ≠ [] ∧
        figure_enter spec
          = Except.ok ((create_panel_grid r.toNat c.toNat).map
              (fun p => Slot.pos p.1 p.2)))) ∧
    (∀ d : String, spec = LayoutSpec.other d →
        figure_enter spec = Except.error PyError.attributeErr) ∧
    (∀ elems : List TupEntry, spec = LayoutSpec.tup elems → elems.length < 2 →
        figure_enter spec = Except.error PyError.indexErr) := by
  cases spec with
  | other d =>
      refine ⟨fun h => PyError.noConfusion (Except.error.inj h),
        Or.inl ⟨PyError.attributeErr, by decide, rfl⟩, ?_, ?_⟩
      · intro d2 h2
        rfl
      · intro elems h2
        cases h2
  | mosaic rows =>
      simp only [spec_valid_layout] at hbad
      have hfe : figure_enter (α := ℤ) (LayoutSpec.mosaic rows)
          = Except.error PyError.backendValueError := by
        simp only [figure_enter, if_neg hbad]
      refine ⟨?_, Or.inl ⟨PyError.backendValueError, by decide, hfe⟩, ?_, ?_⟩
      · rw [hfe]
        exact fun h => PyError.noConfusion (Except.error.inj h)
      · intro d2 h2
        cases h2
      · intro elems h2
        cases h2
  | tup elems =>
      rcases elems with _ | ⟨e0, _ | ⟨e1, rest⟩⟩
      · refine ⟨fun h => PyError.noConfusion (Except.error.inj h),
          Or.inl ⟨PyError.indexErr, by decide, rfl⟩, ?_, ?_⟩
        · intro d2 h2
          cases h2
        · intro elems2 h2 h3
          cases h2
          rfl
      · cases e0 with
        | int n =>
            refine ⟨fun h => PyError.noConfusion (Except.error.inj h),
              Or.inl ⟨PyError.indexErr, by decide, rfl⟩, ?_, ?_⟩
            · intro d2 h2
              cases h2
            · intro elems2 h2 h3
              cases h2
              rfl
        | nonInt s =>
            refine ⟨fun h => PyError.noConfusion (Except.error.inj h),
              Or.inl ⟨PyError.indexErr, by decide, rfl⟩, ?_, ?_⟩
            · intro d2 h2
              cases h2
            · intro elems2 h2 h3
              cases h2
              rfl
      · have hlen : ∀ elems2 : List TupEntry,
            LayoutSpec.tup (α := ℤ) (e0 :: e1 :: rest) = LayoutSpec.tup elems2 →
            elems2.length < 2 →
            figure_enter (α := ℤ) (LayoutSpec.tup (e0 :: e1 :: rest))
              = Except.error PyError.indexErr := by
          intro elems2 h2 h3
          cases h2
          simp only [List.length_cons] at h3
          omega
        cases e0 with
        | nonInt s =>
            refine ⟨fun h => PyError.noConfusion (Except.error.inj h),
              Or.inl ⟨PyError.backendValueError, by decide, rfl⟩, ?_, hlen⟩
            intro d2 h2
            cases h2
        | int r =>
            cases e1 with
            | nonInt s =>
                refine ⟨fun h => PyError.noConfusion (Except.error.inj h),
                  Or.inl ⟨PyError.backendValueError, by decide, rfl⟩, ?_, hlen⟩
                intro d2 h2
                cases h2
            | int c =>
                by_cases hrc : 0 < r ∧ 0 < c
                · rcases eq_or_ne rest [] with rfl | hrest
                  · exact absurd ⟨r, c, rfl, hrc.1, hrc.2⟩ hbad
                  · have hfe := figure_enter_tup_int_int (α := ℤ) r c rest
                    rw [if_pos hrc] at hfe
                    refine ⟨?_,
                      Or.inr ⟨r, c, rest, rfl, hrc.1, hrc.2, hrest, hfe⟩, ?_, hlen⟩
                    · rw [hfe]
                      exact fun h => Except.noConfusion h
                    · intro d2 h2
                      cases h2
                · have hfe := figure_enter_tup_int_int (α := ℤ) r c rest
                  rw [if_neg hrc] at hfe
                  refine ⟨?_,
                    Or.inl ⟨PyError.backendValueError, by decide, hfe⟩, ?_, hlen⟩
                  · rw [hfe]
                    exact fun h => PyError.noConfusion (Except.error.inj h)
                  · intro d2 h2
                    cases h2

theorem C8_invalid_layout_failure_witness :
    (¬ spec_valid_layout (LayoutSpec.other (α := ℤ) "None")) ∧
    figure_enter (LayoutSpec.other (α := ℤ) "None")
      ≠ Except.error PyError.invalidLayoutError ∧
    figure_enter (LayoutSpec.other (α := ℤ) "None")
      = Except.error PyError.attributeErr ∧
    (¬ spec_valid_layout (LayoutSpec.tup (α := ℤ) [TupEntry.int 2])) ∧
    figure_enter (LayoutSpec.tup (α := ℤ) [TupEntry.int 2])
      = Except.error PyError.indexErr := by
  have hbad2 : ¬ spec_valid_layout (LayoutSpec.tup (α := ℤ) [TupEntry.int 2]) := by
    rintro ⟨r, c, hrc, -, -⟩
    simp at hrc
  refine ⟨fun h => h, ?_, ?_, hbad2, ?_⟩
  · exact (C8_invalid_layout_failure (LayoutSpec.other "None") (fun h => h)).1
  · exact (C8_invalid_layout_failure (LayoutSpec.other "None") (fun h => h)).2.2.1
      "None" rfl
  · exact (C8_invalid_layout_failure (LayoutSpec.tup [TupEntry.int 2]) hbad2).2.2.2
      [TupEntry.int 2] rfl (by norm_num)

theorem pyIndex_neg_one {β : Type} (xs : List β) : pyIndex xs (-1) = xs.getLast? := by
  rcases eq_or_ne xs [] with rfl | hne
  · simp [pyIndex]
  · have hlen : 0 < xs.length := List.length_pos.mpr hne
    rw [pyIndex, if_neg (by norm_num), if_pos (by omega), List.getLast?_eq_getElem?]
    congr 1
    omega

theorem calls_state_single {β : Type} (axes : List β) (s : FigAxState)
    (hp : s.is_panel = true) : ∀ n : ℕ, calls_state axes s n = s := by
  intro n
  induction n with
  | zero => rfl
  | succ n ih =>
      rw [calls_state, ih]
      simp [get_next_axis, hp]

theorem get_next_axis_single {β : Type} (axes : List β) (ca : ℤ) :
    get_next_axis axes ⟨ca, true⟩ = (pyIndex axes ca, ⟨ca, true⟩) := rfl

theorem get_next_axis_multi {β : Type} (axes : List β) (ca : ℤ) :
    get_next_axis axes ⟨ca, false⟩ = (pyIndex axes (ca + 1), ⟨ca + 1, false⟩) := rfl

theorem calls_state_multi {β : Type} (axes : List β) (s : FigAxState)
    (hp : s.is_panel = false) :
    ∀ n : ℕ, calls_state axes s n = ⟨s.current_ax + n, false⟩ := by
  intro n
  induction n with
  | zero =>
      rcases s with ⟨ca, ip⟩
      simp only [calls_state, Nat.cast_zero, add_zero]
      simp only at hp
      rw [hp]
  | succ n ih =>
      rw [calls_state, ih, get_next_axis_multi]
      show (⟨s.current_ax + (n : ℤ) + 1, false⟩ : FigAxState)
        = ⟨s.current_ax + ((n + 1 : ℕ) : ℤ), false⟩
      congr 1
      push_cast
      ring

/-- **C9.** For every Figure constructed with layout `(1,1)`, single-panel
mode (`Figure.is_panel`) is set and `Figure.get_next_axis` never increments
the shared counter `Figure.current_ax`, which stays at `-1`, so every call
returns the last axis of the current figure; for every multi-panel Figure,
the counter is reset to `-1` at construction and each `get_next_axis` call
increments it by exactly one, so the `i`-th Panel entered receives the `i`-th
axis of the resolved order. -/
theorem C9_axis_counter {β : Type} (axes : List β) :
    ((Figure_init (LayoutSpec.tup (α := ℤ) [TupEntry.int 1, TupEntry.int 1])).is_panel = true ∧
     (Figure_init (LayoutSpec.tup (α := ℤ) [TupEntry.int 1, TupEntry.int 1])).current_ax = -1 ∧
     (∀ n : ℕ, calls_state axes (Figure_init (LayoutSpec.tup (α := ℤ) [TupEntry.int 1, TupEntry.int 1])) n
         = Figure_init (LayoutSpec.tup (α := ℤ) [TupEntry.int 1, TupEntry.int 1])) ∧
     (∀ n : ℕ,
       (get_next_axis axes
           (calls_state axes (Figure_init (LayoutSpec.tup (α := ℤ) [TupEntry.int 1, TupEntry.int 1])) n)).1
         = axes.getLast?)) ∧
    (∀ spec : LayoutSpec ℤ, spec ≠ LayoutSpec.tup [TupEntry.int 1, TupEntry.int 1] →
      (Figure_init spec).is_panel = false ∧
      (Figure_init spec).current_ax = -1 ∧
      (∀ n : ℕ, (calls_state axes (Figure_init spec) n).current_ax = -1 + n) ∧
      (∀ i : ℕ, i < axes.length →
          (get_next_axis axes (calls_state axes (Figure_init spec) i)).1
            = axes[i]?)) := by
  have hfi1 : Figure_init (LayoutSpec.tup (α := ℤ) [TupEntry.int 1, TupEntry.int 1]) = ⟨-1, true⟩ := by
    simp [Figure_init]
  have hp1 : (Figure_init (LayoutSpec.tup (α := ℤ) [TupEntry.int 1, TupEntry.int 1])).is_panel = true := by
    rw [hfi1]
  constructor
  · refine ⟨hp1, rfl, calls_state_single axes _ hp1, ?_⟩
    intro n
    rw [calls_state_single axes _ hp1 n, hfi1, get_next_axis_single]
    exact pyIndex_neg_one axes
  · intro spec hne
    have hfi0 : Figure_init spec = ⟨-1, false⟩ := by
      rw [Figure_init, decide_eq_false hne]
    have hp0 : (Figure_init spec).is_panel = false := by
      rw [hfi0]
    refine ⟨hp0, by rw [hfi0], ?_, ?_⟩
    · intro n
      rw [calls_state_multi axes _ hp0 n, hfi0]
    · intro i hi
      rw [calls_state_multi axes _ hp0 i, hfi0]
      rw [show ((⟨-1, false⟩ : FigAxState).current_ax) = -1 from rfl,
        get_next_axis_multi]
      rw [show (-1 + (i : ℤ) + 1) = (i : ℤ) by ring]
      rw [pyIndex, if_pos (Int.natCast_nonneg i)]
      congr 1

theorem C9_axis_counter_witness :
    (LayoutSpec.other (α := ℤ) "x") ≠ LayoutSpec.tup [TupEntry.int 1, TupEntry.int 1] ∧
    (Figure_init (LayoutSpec.other (α := ℤ) "x")).is_panel = false ∧
    (calls_state ([10, 20] : List ℤ)
        (Figure_init (LayoutSpec.other (α := ℤ) "x")) 2).current_ax = -1 + 2 ∧
    (get_next_axis ([10, 20] : List ℤ)
        (calls_state [10, 20] (Figure_init (LayoutSpec.other (α := ℤ) "x")) 1)).1
      = ([10, 20] : List ℤ)[1]? :=
  ⟨by decide,
   ((C9_axis_counter ([10, 20] : List ℤ)).2 (LayoutSpec.other "x") (by decide)).1,
   ((C9_axis_counter ([10, 20] : List ℤ)).2 (LayoutSpec.other "x") (by decide)).2.2.1 2,
   ((C9_axis_counter ([10, 20] : List ℤ)).2 (LayoutSpec.other "x")
      (by decide)).2.2.2 1 (by norm_num)⟩

/-- **C10.** For every Panel created inside a Figure, each styling setting
(spines, grid, x_range, y_range, extent) resolves with the priority: an
argument passed to the Panel itself wins; otherwise the keyword given to the
enclosing Figure applies; otherwise the class default (spines `"lb"`, grid
`"xy"`, ranges `none`) applies; and constructing a new Figure resets the
shared `Panel.panel_kw` to a fresh copy of the defaults, independent of any
previous state, so settings from one figure never leak into a later one. -/
theorem C10_panel_settings_priority (args : PanelSettings) (kwargs : FigPanelKwargs)
    (old1 old2 : PanelSettings) :
    Panel_init args (Figure_init_panel_kw kwargs old1)
      = { spines := spec_setting_priority args.spines kwargs.spines (some "lb")
          grid := spec_setting_priority args.grid kwargs.grid (some "xy")
          x_range := spec_setting_priority args.x_range kwargs.x_range none
          y_range := spec_setting_priority args.y_range kwargs.y_range none
          extent := spec_setting_priority args.extent kwargs.extent none } ∧
    Figure_init_panel_kw kwargs old1 = Figure_init_panel_kw kwargs old2 ∧
    Figure_init_panel_kw ⟨none, none, none, none, none⟩ old1 = default_panel_kw := by
  refine ⟨?_, rfl, rfl⟩
  rcases args with ⟨s, g, xr, yr, ex⟩
  rcases kwargs with ⟨ks, kg, kxr, kyr, kex⟩
  cases s <;> cases g <;> cases xr <;> cases yr <;> cases ex <;>
    cases ks <;> cases kg <;> cases kxr <;> cases kyr <;> cases kex <;> rfl

end Figurex
